import Mathlib

/- Shallow embedding of app.py (APBD Analyzer): robust number parsing,
   account classification, ratio computation, rule-based interpretation,
   column resolution and per-category aggregation.

   Modelling conventions:
   * Python floats are modelled as exact rationals (`ℚ`); the places where
     IEEE-double overflow matters carry an explicit infinity marker
     (`PyFloat.inf`), with the overflow threshold `2 ^ 1024 - 2 ^ 970`
     (round-to-nearest-even).  Within-range rounding is not modelled.
   * Python `None` is `Option.none`; dicts are association lists looked up
     by first match (Python dict keys here are inserted once, in order).
   * Strings are handled at the `List Char` level (ASCII view of `str`
     methods and of the `re` character classes used by the code). -/

/-- ASCII digit test, modelling the regex class `\d` on ASCII input. -/
def isDigitChar (c : Char) : Bool := decide (48 ≤ c.toNat ∧ c.toNat ≤ 57)

/-- The decimal digit character for a value below ten. -/
def digitChar (n : ℕ) : Char :=
  match n with
  | 0 => '0' | 1 => '1' | 2 => '2' | 3 => '3' | 4 => '4'
  | 5 => '5' | 6 => '6' | 7 => '7' | 8 => '8' | _ => '9'

/-- Numeric value of a decimal digit character. -/
def digitVal (c : Char) : ℕ := c.toNat - 48

/-- Value of a list of decimal digit characters (most significant first),
    as Python `float` reads the integer or fraction part of a literal. -/
def ofDecDigits (l : List Char) : ℕ := l.foldl (fun a c => 10 * a + digitVal c) 0

/-- Decimal digits of a natural number, with explicit fuel so that the
    definition is structural and reduces in the kernel. -/
def toDecDigitsAux : ℕ → ℕ → List Char
  | 0, _ => []
  | fuel + 1, n =>
    if n < 10 then [digitChar n]
    else toDecDigitsAux fuel (n / 10) ++ [digitChar (n % 10)]

/-- Decimal digit characters of a natural number (most significant first). -/
def toDecDigits (n : ℕ) : List Char := toDecDigitsAux (n + 1) n

/-- Character-list prefix test (Bool-valued). -/
def chListPref : List Char → List Char → Bool
  | [], _ => true
  | _ :: _, [] => false
  | a :: p, b :: l => a == b && chListPref p l

/-- Character-list substring (infix) test, modelling Python `sub in s`. -/
def chListInf (p : List Char) : List Char → Bool
  | [] => p.isEmpty
  | b :: t => chListPref p (b :: t) || chListInf p t

/-- Python `sub in s` (substring containment) on strings. -/
def strContains (s pat : String) : Bool := chListInf pat.data s.data

/-- Python `str.lower()` (ASCII model). -/
def toLowerL (l : List Char) : List Char := l.map Char.toLower

/-- Python `str.strip()`: drop whitespace from both ends. -/
def trimChars (l : List Char) : List Char :=
  ((l.dropWhile Char.isWhitespace).reverse.dropWhile Char.isWhitespace).reverse

/-- A Python float as this program can produce it: a finite value (exact
    rational) or an infinity, as `float(s)` yields on out-of-range decimal
    text.  (`NaN` cannot arise: letters are stripped before `float`.) -/
inductive PyFloat where
  | finite (q : ℚ)
  | inf (neg : Bool)
deriving DecidableEq

/-- Smallest positive decimal magnitude at which `float(s)` overflows to
    infinity under round-to-nearest-even. -/
def dblOverflowThreshold : ℚ := 2 ^ 1024 - 2 ^ 970

/-- Conversion of an exact decimal value to the Python float it denotes:
    out-of-range magnitudes become signed infinity. -/
def pyFloatOfQ (q : ℚ) : PyFloat :=
  if dblOverflowThreshold ≤ q then .inf false
  else if q ≤ -dblOverflowThreshold then .inf true
  else .finite q

/-- Lexical part of Python `float(s)` on text already filtered to digits,
    `.` and `-` (the only characters surviving `parse_number`'s final
    cleanup): an optional leading minus, then digits containing at most
    one dot and at least one digit.  Yields the sign, the integer-part
    digits and the fraction-part digits; `none` models a `ValueError`. -/
def floatParts (l : List Char) : Option (Bool × List Char × List Char) :=
  let neg := l.head? == some '-'
  let r := if neg then l.tail else l
  if r.all (fun c => isDigitChar c || c == '.') && decide (r.count '.' ≤ 1)
      && r.any isDigitChar then
    some (neg, r.takeWhile (fun c => !(c == '.')), (r.dropWhile fun c => !(c == '.')).tail)
  else none

/-- Python `float(s)` on cleaned text: the signed value of the recognised
    parts, `none` for a `ValueError`. -/
def parsePyFloat (l : List Char) : Option ℚ :=
  (floatParts l).map fun p =>
    (if p.1 then (-1 : ℚ) else 1)
      * ((ofDecDigits p.2.1 : ℚ) + (ofDecDigits p.2.2 : ℚ) / 10 ^ p.2.2.length)

/-- Keep-set of the first cleanup `re.sub(r"[^\d\.,\-]", "", s)`. -/
def keepNumChars (l : List Char) : List Char :=
  l.filter fun c => isDigitChar c || c == '.' || c == ',' || c == '-'

/-- `re.search(r"\.\d{1,3}$", s)`: the text ends in a dot followed by one
    to three digits (the maximal trailing digit run has length 1..3 and is
    preceded by a dot). -/
def trailingDecMatch (l : List Char) : Bool :=
  let r := l.reverse
  let ds := r.takeWhile isDigitChar
  decide (1 ≤ ds.length) && decide (ds.length ≤ 3) && ((r.drop ds.length).head? == some '.')

/-- Steps of `parse_number` on text (app.py lines 27-48): strip, the
    accounting-parentheses sign, currency-character removal, separator
    disambiguation, final cleanup. -/
def clean_number_text (x : String) : List Char :=
  let t0 := trimChars x.data
  let t1 :=
    if t0.head? == some '(' && t0.getLast? == some ')' then '-' :: (t0.drop 1).dropLast
    else t0
  let t2 := keepNumChars t1
  let t3 :=
    if t2.contains '.' && t2.contains ',' then
      (t2.filter fun c => !(c == '.')).map fun c => if c == ',' then '.' else c
    else
      let ta := if t2.contains '.' && !trailingDecMatch t2 then t2.filter fun c => !(c == '.') else t2
      ta.map fun c => if c == ',' then '.' else c
  t3.filter fun c => isDigitChar c || c == '.' || c == '-'

/-- `parse_number` on text input (app.py lines 27-54). -/
def parse_number_str (x : String) : PyFloat :=
  if trimChars x.data = [] then .finite 0
  else if clean_number_text x = [] ∨ clean_number_text x = ['-'] ∨ clean_number_text x = ['.'] then
    .finite 0
  else
    match parsePyFloat (clean_number_text x) with
    | none => .finite 0
    | some q => pyFloatOfQ q

/-- An input cell as `parse_number` sees it: missing (`NaN` or `None`),
    already numeric (a finite int or float), or text. -/
inductive PyVal where
  | none
  | num (q : ℚ)
  | str (s : String)

/-- `parse_number` (app.py lines 15-54). -/
def parse_number : PyVal → PyFloat
  | .none => .finite 0
  | .num q => .finite q
  | .str s => parse_number_str s

/-- Number of fractional decimal digits of a terminating decimal (bounded
    search), used by the model of Python `str` on a float. -/
def fracLenAux (a : ℚ) : ℕ :=
  ((List.range 400).find? fun k => (a * 10 ^ k).den == 1).getD 0

/-- Model of Python `str` on a finite float value in the positional-notation
    regime: sign, integer digits, a dot, then the fractional digits (at
    least one, so integral values render with a trailing `.0`, exactly as
    Python prints them). -/
def pyStr (q : ℚ) : String :=
  let sgn : List Char := if q < 0 then ['-'] else []
  let a := |q|
  let ip := (⌊a⌋).toNat
  let k := max 1 (fracLenAux a)
  let m := ((a - (ip : ℚ)) * 10 ^ k).num.toNat
  let ds := toDecDigits m
  ⟨sgn ++ toDecDigits ip ++ ['.'] ++ (List.replicate (k - ds.length) '0' ++ ds)⟩

/-- Rule 1 of `classify_account`: PAD-related tokens (app.py line 75). -/
def padLabelCond (n : List Char) : Bool :=
  chListInf "pad".data n || chListInf "pajak".data n || chListInf "retribusi".data n
    || chListInf "hasil pengelolaan".data n || chListInf "lain-lain pad".data n

/-- Rule 2: transfer-related tokens (app.py line 78). -/
def transferLabelCond (n : List Char) : Bool :=
  chListInf "tkdd".data n || chListInf "transfer".data n || chListInf "dau".data n
    || chListInf "dak".data n || chListInf "dbh".data n

/-- Rule 3: the PENDAPATAN umbrella (app.py line 81). -/
def pendapatanLabelCond (n : List Char) : Bool :=
  chListPref "pendapatan".data (trimChars n) || chListInf "pendapatan daerah".data n

/-- Rule 4: operating-spending tokens (app.py line 84). -/
def belanjaOperasiLabelCond (n : List Char) : Bool :=
  chListInf "belanja pegawai".data n || chListInf "belanja barang".data n
    || chListInf "belanja jasa".data n || chListInf "belanja barang dan jasa".data n

/-- Rule 5: capital-spending tokens (app.py line 87). -/
def belanjaModalLabelCond (n : List Char) : Bool :=
  chListInf "belanja modal".data n || (chListInf "modal".data n && chListInf "belanja".data n)

/-- Rule 6: other-spending tokens (app.py line 90). -/
def belanjaLainnyaLabelCond (n : List Char) : Bool :=
  chListInf "hibah".data n || chListInf "bantu".data n || chListInf "subsidi".data n
    || chListInf "bagi hasil".data n

/-- Rule 7: unexpected-spending token (app.py line 93). -/
def tidakTerdugaLabelCond (n : List Char) : Bool := chListInf "tidak terduga".data n

/-- Rule 8: financing tokens (app.py line 96). -/
def pembiayaanLabelCond (n : List Char) : Bool :=
  chListInf "pembiayaan".data n || chListInf "penerimaan pembiayaan".data n
    || chListInf "sisa lebih".data n

/-- `classify_account` (app.py lines 70-98): lower-case the label, try the
    eight rules in order, fall through to `LAINNYA`. -/
def classify_account (name : String) : String :=
  let n := toLowerL name.data
  if padLabelCond n then "PAD"
  else if transferLabelCond n then "TRANSFER"
  else if pendapatanLabelCond n then "PENDAPATAN"
  else if belanjaOperasiLabelCond n then "BELANJA_OPERASI"
  else if belanjaModalLabelCond n then "BELANJA_MODAL"
  else if belanjaLainnyaLabelCond n then "BELANJA_LAINNYA"
  else if tidakTerdugaLabelCond n then "BELANJA_TIDAK_TERDUGA"
  else if pembiayaanLabelCond n then "PEMBIAYAAN"
  else "LAINNYA"

/-- The eight classification rules of app.py lines 75-96, in source order,
    as (condition on the lower-cased label, resulting tag) pairs. -/
def ruleConds : List ((List Char → Bool) × String) :=
  [(padLabelCond, "PAD"), (transferLabelCond, "TRANSFER"),
   (pendapatanLabelCond, "PENDAPATAN"), (belanjaOperasiLabelCond, "BELANJA_OPERASI"),
   (belanjaModalLabelCond, "BELANJA_MODAL"), (belanjaLainnyaLabelCond, "BELANJA_LAINNYA"),
   (tidakTerdugaLabelCond, "BELANJA_TIDAK_TERDUGA"), (pembiayaanLabelCond, "PEMBIAYAAN")]

/-- Condition of the i-th classification rule (false beyond the list). -/
def ruleCond (i : ℕ) : List Char → Bool := (ruleConds.getD i (fun _ => false, "LAINNYA")).1

/-- Tag of the i-th classification rule. -/
def ruleTag (i : ℕ) : String := (ruleConds.getD i (fun _ => false, "LAINNYA")).2

/-- `safe_pct` (app.py lines 103-109) on the float arguments the program
    passes it: guarded percentage, 0.0 on a zero denominator. -/
def safe_pct (numer denom : ℚ) : ℚ := if denom = 0 then 0 else numer / denom * 100

/-- Python `dict.get(key, default)` on a float-valued dict. -/
def dictGetD (d : List (String × ℚ)) (key : String) (dflt : ℚ) : ℚ :=
  match d.find? fun p => p.1 == key with
  | some p => p.2
  | none => dflt

/-- Python `key in dict` / `dict[key]` access on a float-valued dict. -/
def lookupT (d : List (String × ℚ)) (key : String) : Option ℚ :=
  (d.find? fun p => p.1 == key).map (·.2)

/-- Python `dict.get(key, default)` on the ratio dict, whose values are
    floats or `None`. -/
def rget (ratios : List (String × Option ℚ)) (key : String) (dflt : Option ℚ) : Option ℚ :=
  match ratios.find? fun p => p.1 == key with
  | some p => p.2
  | none => dflt

/-- Presence and value of a key in the ratio dict: `none` when the key is
    absent, `some v` when it is present with value `v`. -/
def rlookup (ratios : List (String × Option ℚ)) (key : String) : Option (Option ℚ) :=
  (ratios.find? fun p => p.1 == key).map (·.2)

/-- `compute_all_ratios` (app.py lines 111-143).  `totals_prev` is `None`
    or a dict; Python's truthiness test `if totals_prev:` is false for
    `None` and for an empty dict. -/
def compute_all_ratios (totals_prev : Option (List (String × ℚ)))
    (totals : List (String × ℚ)) : List (String × Option ℚ) :=
  let PAD := dictGetD totals "PAD" 0
  let TRANSFER := dictGetD totals "TRANSFER" 0
  let PENDAPATAN := dictGetD totals "PENDAPATAN" 0
  let TOTAL_BELANJA := dictGetD totals "TOTAL_BELANJA" 0
  let BEL_OP := dictGetD totals "BELANJA_OPERASI" 0
  let BEL_MOD := dictGetD totals "BELANJA_MODAL" 0
  let ANG_BELANJA := dictGetD totals "ANGGARAN_BELANJA" 0
  let core : List (String × Option ℚ) :=
    [("Rasio Kemandirian (%)", some (safe_pct PAD TRANSFER)),
     ("Rasio Ketergantungan Transfer (%)", some (safe_pct TRANSFER PENDAPATAN)),
     ("Rasio Efektivitas PAD (%)",
       some (safe_pct (dictGetD totals "Realisasi_PAD" 0) (dictGetD totals "Anggaran_PAD" 0))),
     ("Rasio Efisiensi Belanja (%)",
       some (safe_pct (dictGetD totals "Realisasi_Belanja" 0) ANG_BELANJA)),
     ("Rasio Belanja Operasi (%)", some (safe_pct BEL_OP TOTAL_BELANJA)),
     ("Rasio Belanja Modal (%)", some (safe_pct BEL_MOD TOTAL_BELANJA)),
     ("Rasio Belanja Pegawai terhadap Belanja (%)",
       some (safe_pct (dictGetD totals "Belanja_Pegawai" 0) TOTAL_BELANJA)),
     ("Rasio Belanja Barang/Jasa terhadap Belanja (%)",
       some (safe_pct (dictGetD totals "Belanja_BarangJasa" 0) TOTAL_BELANJA))]
  let growth : List (String × Option ℚ) :=
    match totals_prev with
    | some tp =>
      if tp.isEmpty then
        [("Pertumbuhan Pendapatan (%)", none), ("Pertumbuhan Belanja (%)", none),
         ("Pertumbuhan PAD (%)", none)]
      else
        [("Pertumbuhan Pendapatan (%)",
           some (safe_pct (dictGetD totals "PENDAPATAN" 0 - dictGetD tp "PENDAPATAN" 0)
             (dictGetD tp "PENDAPATAN" 1))),
         ("Pertumbuhan Belanja (%)",
           some (safe_pct (TOTAL_BELANJA - dictGetD tp "TOTAL_BELANJA" 0)
             (dictGetD tp "TOTAL_BELANJA" 1))),
         ("Pertumbuhan PAD (%)",
           some (safe_pct (dictGetD totals "PAD" 0 - dictGetD tp "PAD" 0)
             (dictGetD tp "PAD" 1)))]
    | none =>
      [("Pertumbuhan Pendapatan (%)", none), ("Pertumbuhan Belanja (%)", none),
       ("Pertumbuhan PAD (%)", none)]
  core ++ growth ++ [("SILPA (Receipts)", some (dictGetD totals "SILPA" 0))]

/-- Round to the nearest integer, ties to even, on the exact rational
    (Python's `format` rounding on the underlying value). -/
def roundHE (y : ℚ) : ℤ :=
  let f := ⌊y⌋
  if y - f < 1 / 2 then f
  else if (1 : ℚ) / 2 < y - f then f + 1
  else if f % 2 = 0 then f else f + 1

/-- Python `f"{x:.2f}"` (the sign of a negative zero is not modelled). -/
def fmt2 (q : ℚ) : String :=
  let n := roundHE (q * 100)
  let m := n.natAbs
  let frac := toDecDigits (m % 100)
  ⟨(if n < 0 then ['-'] else []) ++ toDecDigits (m / 100) ++ ['.']
    ++ (List.replicate (2 - frac.length) '0' ++ frac)⟩

/-- Digit groups of three, least-significant first (fuel-based). -/
def group3Aux : ℕ → List Char → List (List Char)
  | 0, _ => []
  | _ + 1, [] => []
  | fuel + 1, l => l.take 3 :: group3Aux fuel (l.drop 3)

/-- Python `f"{x:,.0f}"`: rounded value with thousands separators. -/
def fmtComma (q : ℚ) : String :=
  let n := roundHE q
  let rev := (toDecDigits n.natAbs).reverse
  ⟨(if n < 0 then ['-'] else [])
    ++ List.intercalate [','] (((group3Aux (rev.length + 1) rev).map List.reverse).reverse)⟩

/-- The kemandirian sentence of `interpret_ratios` (app.py lines 153-160),
    with its four threshold bands. -/
def kemandirianLine (k : ℚ) : String :=
  if k < 10 then
    "Rasio kemandirian sebesar " ++ fmt2 k
      ++ "% menunjukkan sangat rendahnya kemampuan PAD; daerah sangat bergantung pada transfer pusat."
  else if k < 20 then
    "Rasio kemandirian sebesar " ++ fmt2 k
      ++ "% tergolong rendah; perlu strategi peningkatan PAD (pajak, retribusi, sumber baru)."
  else if k < 50 then
    "Rasio kemandirian " ++ fmt2 k
      ++ "% tergolong sedang — ada kapasitas PAD tetapi masih perlu penguatan."
  else
    "Rasio kemandirian " ++ fmt2 k ++ "% tergolong tinggi; daerah relatif mandiri."

/-- The PAD-effectiveness sentence (app.py lines 165-170). -/
def efektivitasLine (ef : ℚ) : String :=
  if ef < 80 then
    "Efektivitas PAD (" ++ fmt2 ef ++ "%) rendah — realisasi PAD jauh di bawah target."
  else if ef ≤ 100 then
    "Efektivitas PAD (" ++ fmt2 ef ++ "%) baik — realisasi mendekati atau sesuai target."
  else
    "Efektivitas PAD (" ++ fmt2 ef
      ++ "%) tinggi — realisasi melebihi target, perlu verifikasi apakah target realistis."

/-- The spending-efficiency sentence (app.py lines 175-180). -/
def efisiensiLine (efi : ℚ) : String :=
  if 100 < efi then
    "Rasio efisiensi belanja (" ++ fmt2 efi
      ++ "%) menunjukkan belanja melebihi anggaran — potensi pemborosan atau realokasi anggaran."
  else if 90 ≤ efi then
    "Rasio efisiensi belanja (" ++ fmt2 efi ++ "%) cukup baik, serapan wajar terhadap anggaran."
  else
    "Rasio efisiensi belanja (" ++ fmt2 efi ++ "%) rendah — serapan belanja rendah terhadap anggaran."

/-- The spending-composition sentence (app.py line 185), always emitted. -/
def komposisiLine (bo bm : ℚ) : String :=
  "Komposisi belanja: Operasi " ++ fmt2 bo ++ "%, Modal " ++ fmt2 bm
    ++ "% — ideal tergantung prioritas; belanja modal rendah dapat berdampak pada investasi infrastruktur."

/-- The revenue-growth sentence (app.py line 190), emitted only when the
    growth ratio is not `None`. -/
def pertumbuhanLine (pg : ℚ) : String :=
  "Pertumbuhan pendapatan tahunan: " ++ fmt2 pg ++ "% (jika tersedia data tahun sebelumnya)."

/-- The SILPA carryover sentence (app.py line 195). -/
def silpaLine (v : ℚ) : String :=
  "Terdapat SILPA sebesar " ++ fmtComma v
    ++ " — perlu analisis alokasi dan penyebab (serapan, penyusunan anggaran)."

/-- `interpret_ratios` (app.py lines 148-197), as the list of sentences it
    joins.  Formatting a `None` with `:.2f` raises a `TypeError` in Python,
    which can happen only for the two unguarded composition values; the
    kemandirian value is coerced (`if k is None: k = 0.0`) and the other
    formatted values are guarded by `is not None` checks. -/
def interpret_lines (ratios : List (String × Option ℚ)) : Except Unit (List String) :=
  let k := (rget ratios "Rasio Kemandirian (%)" (some 0)).getD 0
  let efLines :=
    match rget ratios "Rasio Efektivitas PAD (%)" (some 0) with
    | none => []
    | some ef => [efektivitasLine ef]
  let efiLines :=
    match rget ratios "Rasio Efisiensi Belanja (%)" (some 0) with
    | none => []
    | some efi => [efisiensiLine efi]
  match rget ratios "Rasio Belanja Operasi (%)" (some 0),
      rget ratios "Rasio Belanja Modal (%)" (some 0) with
  | some bo, some bm =>
    let pgLines :=
      match rget ratios "Pertumbuhan Pendapatan (%)" none with
      | none => []
      | some pg => [pertumbuhanLine pg]
    let silpaLines :=
      match rget ratios "SILPA (Receipts)" none with
      | some v => if v = 0 then [] else [silpaLine v]
      | none => []
    Except.ok ([kemandirianLine k] ++ efLines ++ efiLines ++ [komposisiLine bo bm]
      ++ pgLines ++ silpaLines)
  | _, _ => Except.error ()

/-- A raw spreadsheet column: its header and the sampled cell values that
    the numeric-likeness heuristic inspects (app.py lines 260-262). -/
structure Col where
  name : String
  sample : List String

/-- `find_column_by_keywords` (app.py lines 59-65): keywords in priority
    order, first matching column wins for each keyword. -/
def find_column_by_keywords (cols : List String) (keywords : List String) : Option String :=
  keywords.findSome? fun k => cols.find? fun c => chListInf (toLowerL k.data) (toLowerL c.data)

/-- The budget-role keyword list (app.py line 247). -/
def anggaranKeywords : List String := ["anggaran", "pagu", "nilai anggaran", "nilai", "budget"]

/-- The actual-role keyword list (app.py line 248). -/
def realisasiKeywords : List String :=
  ["realisasi", "realisasi (rp)", "realisasi anggaran", "realisasi"]

/-- "Numeric-like" sample test (app.py line 262): the sample is non-empty
    and every sampled value keeps some character after
    `re.sub(r'[^\d\.\,\-\(\)]', '', s).strip()`. -/
def numericLikeSample (sample : List String) : Bool :=
  !sample.isEmpty && sample.all fun s =>
    !(trimChars (s.data.filter fun c =>
        isDigitChar c || c == '.' || c == ',' || c == '-' || c == '(' || c == ')')).isEmpty

/-- `numeric_candidates` (app.py lines 259-264): names of numeric-like
    columns in encounter order. -/
def numericCandidates (cols : List Col) : List String :=
  (cols.filter fun c => numericLikeSample c.sample).map Col.name

/-- The budget column after the numeric fallback (app.py lines 265-266):
    when the keyword search failed, the first numeric-like column. -/
def fallbackAng (cols : List Col) : Option String :=
  match find_column_by_keywords (cols.map Col.name) anggaranKeywords, numericCandidates cols with
  | none, a :: _ => some a
  | o, _ => o

/-- The actual column after the numeric fallback (app.py lines 267-268):
    when the keyword search failed and at least two numeric-like columns
    exist, the second one — or the first if the second duplicates the
    (updated) budget column. -/
def fallbackReal (cols : List Col) : Option String :=
  match find_column_by_keywords (cols.map Col.name) realisasiKeywords, numericCandidates cols with
  | none, a :: b :: _ => some (if some b ≠ fallbackAng cols then b else a)
  | o, _ => o

/-- Budget/actual column resolution (app.py lines 247, 248, 254-268):
    keyword matching, then the `st.stop()` abort when both roles are
    unresolved (`none` result), and otherwise the numeric-candidates
    fallback for a single missing role. -/
def resolve_budget_actual (cols : List Col) : Option (Option String × Option String) :=
  if find_column_by_keywords (cols.map Col.name) anggaranKeywords = none
      ∧ find_column_by_keywords (cols.map Col.name) realisasiKeywords = none then none
  else some (fallbackAng cols, fallbackReal cols)

/-- One cleaned spreadsheet row: account label, parsed budget and actual
    amounts, optional period tag (app.py lines 270-290). -/
structure Row where
  akun : String
  anggaran : ℚ
  realisasi : ℚ
  tahun : Option String

/-- Per-category budget sum of the groupby aggregation (app.py lines
    296-299): sum of `Anggaran` over the rows classified into `c`. -/
def aggAnggaran (rows : List Row) (c : String) : ℚ :=
  ((rows.filter fun r => classify_account r.akun == c).map Row.anggaran).sum

/-- Per-category actual sum of the groupby aggregation. -/
def aggRealisasi (rows : List Row) (c : String) : ℚ :=
  ((rows.filter fun r => classify_account r.akun == c).map Row.realisasi).sum

/-- Actual sum over every category whose tag contains "BELANJA"
    (app.py line 310). -/
def belanjaRealSum (rows : List Row) : ℚ :=
  ((rows.filter fun r => strContains (classify_account r.akun) "BELANJA").map Row.realisasi).sum

/-- Budget sum over every category whose tag contains "BELANJA"
    (app.py line 312). -/
def belanjaAngSum (rows : List Row) : ℚ :=
  ((rows.filter fun r => strContains (classify_account r.akun) "BELANJA").map Row.anggaran).sum

/-- The `totals` dict (app.py lines 304-316), with its exact keys in
    insertion order; a category absent from the aggregation contributes an
    empty (zero) sum, which coincides with the code's `else 0.0` branches. -/
def buildTotals (rows : List Row) : List (String × ℚ) :=
  [("PAD", aggRealisasi rows "PAD"),
   ("TRANSFER", aggRealisasi rows "TRANSFER"),
   ("PENDAPATAN", aggRealisasi rows "PENDAPATAN"),
   ("BELANJA_OPERASI", aggRealisasi rows "BELANJA_OPERASI"),
   ("BELANJA_MODAL", aggRealisasi rows "BELANJA_MODAL"),
   ("TOTAL_BELANJA", belanjaRealSum rows),
   ("ANGGARAN_BELANJA", belanjaAngSum rows),
   ("Realisasi_Belanja", belanjaRealSum rows),
   ("Anggaran_PAD", aggAnggaran rows "PAD"),
   ("Realisasi_PAD", aggRealisasi rows "PAD")]

/-- Insertion into a sorted string list (ascending). -/
def insertSortedStr (a : String) : List String → List String
  | [] => [a]
  | b :: t => if a ≤ b then a :: b :: t else b :: insertSortedStr a t

/-- Python `sorted` on strings (lexicographic ascending). -/
def sortStrings : List String → List String
  | [] => []
  | a :: t => insertSortedStr a (sortStrings t)

/-- The previous-period totals (app.py lines 318-336): `None` unless at
    least two distinct period tags are present; otherwise the
    second-latest period's PENDAPATAN-family, BELANJA-family and PAD
    actual sums. -/
def buildTotalsPrev (rows : List Row) : Option (List (String × ℚ)) :=
  let years := (rows.filterMap Row.tahun).dedup
  if 2 ≤ years.length then
    let ys := sortStrings years
    let prevYear := ys.getD (ys.length - 2) ""
    let dprev := rows.filter fun r => r.tahun == some prevYear
    some
      [("PENDAPATAN",
         ((dprev.filter fun r => classify_account r.akun == "PAD"
             || classify_account r.akun == "TRANSFER"
             || classify_account r.akun == "PENDAPATAN").map Row.realisasi).sum),
       ("TOTAL_BELANJA",
         ((dprev.filter fun r => strContains (classify_account r.akun) "BELANJA").map
           Row.realisasi).sum),
       ("PAD",
         ((dprev.filter fun r => classify_account r.akun == "PAD").map Row.realisasi).sum)]
  else none

/-- Helper: a guarded percentage with zero numerator is zero whatever the
    denominator. -/
theorem safe_pct_zero_num (d : ℚ) : safe_pct 0 d = 0 := by
  unfold safe_pct
  split_ifs <;> simp

/-- Helper: a value strictly inside the double range stays finite. -/
theorem pyFloatOfQ_finite {q : ℚ} (h1 : -dblOverflowThreshold < q)
    (h2 : q < dblOverflowThreshold) : pyFloatOfQ q = .finite q := by
  unfold pyFloatOfQ
  rw [if_neg (by linarith), if_neg (by linarith)]

/-- Helper: a value at or beyond the positive overflow threshold becomes
    positive infinity. -/
theorem pyFloatOfQ_inf_pos {q : ℚ} (h : dblOverflowThreshold ≤ q) :
    pyFloatOfQ q = .inf false := by
  unfold pyFloatOfQ
  rw [if_pos h]

/-- Helper: when the cleaned text is not a float literal, `parse_number`
    returns 0.0 (through any of its three zero paths). -/
theorem parse_str_parts_none {x : String} (h : floatParts (clean_number_text x) = none) :
    parse_number_str x = .finite 0 := by
  unfold parse_number_str
  split_ifs with h1 h2
  · rfl
  · rfl
  · unfold parsePyFloat
    rw [h]
    rfl

/-- Helper: when the trimmed input is nonempty and the cleaned text lexes
    as a float literal, `parse_number` returns the (possibly overflowed)
    signed value of its parts. -/
theorem parse_str_parts_some (x : String) (neg : Bool) (ip fp : List Char)
    (h0 : ¬trimChars x.data = [])
    (h : floatParts (clean_number_text x) = some (neg, ip, fp)) :
    parse_number_str x
      = pyFloatOfQ ((if neg then (-1 : ℚ) else 1)
          * ((ofDecDigits ip : ℚ) + (ofDecDigits fp : ℚ) / 10 ^ fp.length)) := by
  have hdeg : ¬(clean_number_text x = [] ∨ clean_number_text x = ['-']
      ∨ clean_number_text x = ['.']) := by
    rintro (h1 | h1 | h1) <;> rw [h1] at h
    · exact Option.noConfusion
        ((show (none : Option (Bool × List Char × List Char)) = floatParts [] from rfl).trans h)
    · exact Option.noConfusion
        ((show (none : Option (Bool × List Char × List Char)) = floatParts ['-'] from rfl).trans h)
    · exact Option.noConfusion
        ((show (none : Option (Bool × List Char × List Char)) = floatParts ['.'] from rfl).trans h)
  unfold parse_number_str
  rw [if_neg h0, if_neg hdeg]
  unfold parsePyFloat
  rw [h]
  rfl

/-- C1 (amended): when a ratio's denominator total is exactly 0.0 (or the
    key is absent, so the `.get` default 0.0 is used), `safe_pct` yields
    the float 0.0 — it never raises and never produces infinity (it is a
    total function on the rationals), but the result is NOT a sentinel
    distinct from 0.0. -/
theorem safe_pct_zero_denominator (numer denom : ℚ) (h : denom = 0) :
    safe_pct numer denom = 0 := by
  simp [safe_pct, h]

/-- Witness for `safe_pct_zero_denominator` at a concrete input. -/
theorem safe_pct_zero_denominator_witness : safe_pct 7 0 = 0 :=
  safe_pct_zero_denominator 7 0 rfl

/-- C1 counterexample: with a nonzero PAD total and the TRANSFER total
    absent (denominator 0.0), the Kemandirian entry of the computed
    RatioSet is present with the float value 0.0 (`some (some 0)`), not
    the `None` unavailability sentinel, so it is not distinct from a
    genuine zero ratio. -/
theorem kemandirian_zero_denominator_is_zero :
    rlookup (compute_all_ratios none [("PAD", 5)]) "Rasio Kemandirian (%)" = some (some 0) := by
  have h : rlookup (compute_all_ratios none [("PAD", 5)]) "Rasio Kemandirian (%)"
      = some (some (safe_pct (dictGetD [("PAD", 5)] "PAD" 0)
          (dictGetD [("PAD", 5)] "TRANSFER" 0))) := rfl
  have h0 : dictGetD [("PAD", (5 : ℚ))] "TRANSFER" 0 = 0 := rfl
  rw [h, h0, safe_pct_zero_denominator _ _ rfl]

/-- C2: of the three documented scenarios of `parse_number`'s docstring,
    only the mixed-separator one holds; the dot-grouped inputs
    "(1.000.000)" and "3.102.745.428.958" end in a dot followed by three
    digits, so the thousands dots are kept, `float` fails on the
    multi-dot text, and the function returns 0.0 instead of the
    documented values. -/
theorem parse_number_docstring_inputs :
    parse_number (PyVal.str "Rp 1.234.567,89") = .finite (1234567.89 : ℚ)
      ∧ parse_number (PyVal.str "(1.000.000)") = .finite 0
      ∧ parse_number (PyVal.str "3.102.745.428.958") = .finite 0 := by
  refine ⟨?_, ?_, ?_⟩
  · show parse_number_str _ = _
    rw [parse_str_parts_some "Rp 1.234.567,89" false ['1', '2', '3', '4', '5', '6', '7']
      ['8', '9'] (by decide) (by decide)]
    have d1 : ofDecDigits ['1', '2', '3', '4', '5', '6', '7'] = 1234567 := by decide
    have d2 : ofDecDigits ['8', '9'] = 89 := by decide
    rw [d1, d2, pyFloatOfQ_finite (by norm_num [dblOverflowThreshold])
      (by norm_num [dblOverflowThreshold])]
    norm_num
  · exact parse_str_parts_none (by decide)
  · exact parse_str_parts_none (by decide)

/-- C4 counterexample: with both the budget and the actual role unresolved
    by keywords but two numeric-like columns available, the pipeline
    aborts (result `none`, the `st.stop()` path) without attempting the
    numeric fallback that the claim says runs first. -/
theorem resolve_budget_actual_aborts_before_fallback :
    resolve_budget_actual [⟨"Akun", ["PAD"]⟩, ⟨"Jumlah1", ["123"]⟩, ⟨"Jumlah2", ["456"]⟩] = none
      ∧ numericCandidates [⟨"Akun", ["PAD"]⟩, ⟨"Jumlah1", ["123"]⟩, ⟨"Jumlah2", ["456"]⟩]
          = ["Jumlah1", "Jumlah2"] := by
  refine ⟨by decide, by decide⟩

/-- C4 (amended): the run aborts exactly when BOTH roles are unresolved by
    keyword matching — the numeric-heuristic fallback is never reached in
    that case — and when exactly the budget role is missing the fallback
    assigns it the first numeric-like column in encounter order. -/
theorem resolve_budget_actual_spec :
    (∀ cols : List Col,
        resolve_budget_actual cols = none ↔
          find_column_by_keywords (cols.map Col.name) anggaranKeywords = none
            ∧ find_column_by_keywords (cols.map Col.name) realisasiKeywords = none)
    ∧ ∀ (cols : List Col) (r a : String) (t : List String),
        find_column_by_keywords (cols.map Col.name) anggaranKeywords = none →
        find_column_by_keywords (cols.map Col.name) realisasiKeywords = some r →
        numericCandidates cols = a :: t →
        resolve_budget_actual cols = some (some a, some r) := by
  constructor
  · intro cols
    by_cases h : find_column_by_keywords (cols.map Col.name) anggaranKeywords = none
        ∧ find_column_by_keywords (cols.map Col.name) realisasiKeywords = none
    · simp only [resolve_budget_actual, if_pos h]
      simp [h]
    · simp only [resolve_budget_actual, if_neg h]
      simp [h]
  · intro cols r a t h1 h2 h3
    have hcond : ¬(find_column_by_keywords (cols.map Col.name) anggaranKeywords = none
        ∧ find_column_by_keywords (cols.map Col.name) realisasiKeywords = none) := by
      rw [h2]
      simp
    simp only [resolve_budget_actual, if_neg hcond]
    simp [fallbackAng, fallbackReal, h1, h2, h3]

/-- Witness for `resolve_budget_actual_spec`: with only the actual role
    keyword-resolved, the budget role is filled from the first
    numeric-like column (here the actual column itself). -/
theorem resolve_budget_actual_spec_witness :
    resolve_budget_actual [⟨"Realisasi", ["12"]⟩, ⟨"Jumlah", ["34"]⟩]
      = some (some "Realisasi", some "Realisasi") :=
  resolve_budget_actual_spec.2 _ "Realisasi" "Realisasi" ["Jumlah"]
    (by decide) (by decide) (by decide)

set_option maxRecDepth 4000 in
/-- C6 counterexample: 400 nines survive cleaning unchanged and denote
    10^400 - 1, which is beyond the IEEE-double range, so Python's
    `float` — and hence `normalize` — yields positive infinity, not a
    finite value. -/
theorem parse_number_overflows_to_inf :
    parse_number (PyVal.str ⟨List.replicate 400 '9'⟩) = .inf false := by
  show parse_number_str _ = _
  rw [parse_str_parts_some ⟨List.replicate 400 '9'⟩ false (List.replicate 400 '9') []
    (by decide) (by decide)]
  rw [pyFloatOfQ_inf_pos]
  have d1 : ofDecDigits (List.replicate 400 '9') = 10 ^ 400 - 1 := by decide
  have d0 : ofDecDigits ([] : List Char) = 0 := rfl
  rw [d1, d0]
  have hc : ((10 ^ 400 - 1 : ℕ) : ℚ) = 10 ^ 400 - 1 := by
    rw [Nat.cast_sub (Nat.one_le_pow _ _ (by norm_num))]
    push_cast
    ring
  rw [hc]
  simp only [show (if (false : Bool) then (-1 : ℚ) else 1) = 1 from rfl, one_mul,
    Nat.cast_zero, zero_div, add_zero]
  have h1 : (2 : ℚ) ^ 1024 ≤ 2 ^ 1200 := pow_le_pow_right₀ (by norm_num) (by norm_num)
  have h2 : (2 : ℚ) ^ 1200 = 8 ^ 400 := by
    rw [show (8 : ℚ) = 2 ^ 3 from by norm_num, ← pow_mul]
  have h3 : (8 : ℚ) ^ 400 ≤ 10 ^ 400 := pow_le_pow_left₀ (by norm_num) (by norm_num) 400
  have h4 : (1 : ℚ) ≤ 2 ^ 970 := by
    have := pow_le_pow_right₀ (show (1 : ℚ) ≤ 2 from by norm_num)
      (show 0 ≤ 970 from by norm_num)
    simpa using this
  unfold dblOverflowThreshold
  linarith

/-- C6 (amended): `normalize` is total — missing input returns 0.0, and on
    text it never raises, returning 0.0 whenever the cleaned text is not a
    float literal — but its result is not always finite: text beyond the
    double range yields infinity (see the overflow counterexample). -/
theorem parse_number_unparseable_zero :
    parse_number PyVal.none = .finite 0
      ∧ ∀ x : String, parsePyFloat (clean_number_text x) = none →
          parse_number (PyVal.str x) = .finite 0 := by
  refine ⟨rfl, fun x h => ?_⟩
  exact parse_str_parts_none (by simpa [parsePyFloat] using h)

/-- Witness for `parse_number_unparseable_zero` on concrete unparseable
    text. -/
theorem parse_number_unparseable_zero_witness :
    parsePyFloat (clean_number_text "abc") = none
      ∧ parse_number (PyVal.str "abc") = .finite 0 :=
  ⟨by decide, parse_number_unparseable_zero.2 "abc" (by decide)⟩

set_option maxRecDepth 8000 in
/-- C7 counterexample: the input "0,0625" normalizes to 0.0625, Python
    prints that value back as "0.0625", and re-normalizing strips the dot
    as a thousands separator (the trailing digit run has length four), so
    the round trip yields 625, not 0.0625. -/
theorem parse_number_roundtrip_fails :
    parse_number (PyVal.str "0,0625") = .finite (1 / 16)
      ∧ pyStr (1 / 16) = "0.0625"
      ∧ parse_number (PyVal.str "0.0625") = .finite 625
      ∧ (625 : ℚ) ≠ 1 / 16 := by
  refine ⟨?_, ?_, ?_, by norm_num⟩
  · show parse_number_str _ = _
    rw [parse_str_parts_some "0,0625" false ['0'] ['0', '6', '2', '5']
      (by decide) (by decide)]
    have d1 : ofDecDigits ['0'] = 0 := by decide
    have d2 : ofDecDigits ['0', '6', '2', '5'] = 625 := by decide
    rw [d1, d2, pyFloatOfQ_finite (by norm_num [dblOverflowThreshold])
      (by norm_num [dblOverflowThreshold])]
    norm_num
  · with_unfolding_all rfl
  · show parse_number_str _ = _
    rw [parse_str_parts_some "0.0625" false ['0', '0', '6', '2', '5'] []
      (by decide) (by decide)]
    have d2 : ofDecDigits ['0', '0', '6', '2', '5'] = 625 := by decide
    have d0 : ofDecDigits ([] : List Char) = 0 := rfl
    rw [d2, d0, pyFloatOfQ_finite (by norm_num [dblOverflowThreshold])
      (by norm_num [dblOverflowThreshold])]
    norm_num

/-- C3: the classifier is a total pure function evaluating the eight
    explicit rules in the source's priority order with first match
    winning: whenever rule `i` and a later rule `j` both match the
    lower-cased label and no rule before `i` matches, the result is rule
    `i`'s tag. -/
theorem classify_account_priority (name : String) (i j : ℕ) (hij : i < j)
    (hi : ruleCond i (toLowerL name.data) = true)
    (hj : ruleCond j (toLowerL name.data) = true)
    (hmin : ∀ k, k < i → ruleCond k (toLowerL name.data) = false) :
    classify_account name = ruleTag i := by
  have hi8 : i < 8 := by
    by_contra hge
    rw [ruleCond, List.getD_eq_default _ _
      (by rw [show ruleConds.length = 8 from rfl]; omega)] at hi
    exact Bool.noConfusion hi
  interval_cases i
  · rw [show ruleCond 0 = padLabelCond from rfl] at hi
    simp only [classify_account]
    rw [if_pos hi]
    rfl
  · have h0 := hmin 0 (by norm_num)
    rw [show ruleCond 0 = padLabelCond from rfl] at h0
    rw [show ruleCond 1 = transferLabelCond from rfl] at hi
    simp only [classify_account]
    rw [if_neg (by simp [h0]), if_pos hi]
    rfl
  · have h0 := hmin 0 (by norm_num)
    have h1 := hmin 1 (by norm_num)
    rw [show ruleCond 0 = padLabelCond from rfl] at h0
    rw [show ruleCond 1 = transferLabelCond from rfl] at h1
    rw [show ruleCond 2 = pendapatanLabelCond from rfl] at hi
    simp only [classify_account]
    rw [if_neg (by simp [h0]), if_neg (by simp [h1]), if_pos hi]
    rfl
  · have h0 := hmin 0 (by norm_num)
    have h1 := hmin 1 (by norm_num)
    have h2 := hmin 2 (by norm_num)
    rw [show ruleCond 0 = padLabelCond from rfl] at h0
    rw [show ruleCond 1 = transferLabelCond from rfl] at h1
    rw [show ruleCond 2 = pendapatanLabelCond from rfl] at h2
    rw [show ruleCond 3 = belanjaOperasiLabelCond from rfl] at hi
    simp only [classify_account]
    rw [if_neg (by simp [h0]), if_neg (by simp [h1]), if_neg (by simp [h2]), if_pos hi]
    rfl
  · have h0 := hmin 0 (by norm_num)
    have h1 := hmin 1 (by norm_num)
    have h2 := hmin 2 (by norm_num)
    have h3 := hmin 3 (by norm_num)
    rw [show ruleCond 0 = padLabelCond from rfl] at h0
    rw [show ruleCond 1 = transferLabelCond from rfl] at h1
    rw [show ruleCond 2 = pendapatanLabelCond from rfl] at h2
    rw [show ruleCond 3 = belanjaOperasiLabelCond from rfl] at h3
    rw [show ruleCond 4 = belanjaModalLabelCond from rfl] at hi
    simp only [classify_account]
    rw [if_neg (by simp [h0]), if_neg (by simp [h1]), if_neg (by simp [h2]),
      if_neg (by simp [h3]), if_pos hi]
    rfl
  · have h0 := hmin 0 (by norm_num)
    have h1 := hmin 1 (by norm_num)
    have h2 := hmin 2 (by norm_num)
    have h3 := hmin 3 (by norm_num)
    have h4 := hmin 4 (by norm_num)
    rw [show ruleCond 0 = padLabelCond from rfl] at h0
    rw [show ruleCond 1 = transferLabelCond from rfl] at h1
    rw [show ruleCond 2 = pendapatanLabelCond from rfl] at h2
    rw [show ruleCond 3 = belanjaOperasiLabelCond from rfl] at h3
    rw [show ruleCond 4 = belanjaModalLabelCond from rfl] at h4
    rw [show ruleCond 5 = belanjaLainnyaLabelCond from rfl] at hi
    simp only [classify_account]
    rw [if_neg (by simp [h0]), if_neg (by simp [h1]), if_neg (by simp [h2]),
      if_neg (by simp [h3]), if_neg (by simp [h4]), if_pos hi]
    rfl
  · have h0 := hmin 0 (by norm_num)
    have h1 := hmin 1 (by norm_num)
    have h2 := hmin 2 (by norm_num)
    have h3 := hmin 3 (by norm_num)
    have h4 := hmin 4 (by norm_num)
    have h5 := hmin 5 (by norm_num)
    rw [show ruleCond 0 = padLabelCond from rfl] at h0
    rw [show ruleCond 1 = transferLabelCond from rfl] at h1
    rw [show ruleCond 2 = pendapatanLabelCond from rfl] at h2
    rw [show ruleCond 3 = belanjaOperasiLabelCond from rfl] at h3
    rw [show ruleCond 4 = belanjaModalLabelCond from rfl] at h4
    rw [show ruleCond 5 = belanjaLainnyaLabelCond from rfl] at h5
    rw [show ruleCond 6 = tidakTerdugaLabelCond from rfl] at hi
    simp only [classify_account]
    rw [if_neg (by simp [h0]), if_neg (by simp [h1]), if_neg (by simp [h2]),
      if_neg (by simp [h3]), if_neg (by simp [h4]), if_neg (by simp [h5]), if_pos hi]
    rfl
  · have h0 := hmin 0 (by norm_num)
    have h1 := hmin 1 (by norm_num)
    have h2 := hmin 2 (by norm_num)
    have h3 := hmin 3 (by norm_num)
    have h4 := hmin 4 (by norm_num)
    have h5 := hmin 5 (by norm_num)
    have h6 := hmin 6 (by norm_num)
    rw [show ruleCond 0 = padLabelCond from rfl] at h0
    rw [show ruleCond 1 = transferLabelCond from rfl] at h1
    rw [show ruleCond 2 = pendapatanLabelCond from rfl] at h2
    rw [show ruleCond 3 = belanjaOperasiLabelCond from rfl] at h3
    rw [show ruleCond 4 = belanjaModalLabelCond from rfl] at h4
    rw [show ruleCond 5 = belanjaLainnyaLabelCond from rfl] at h5
    rw [show ruleCond 6 = tidakTerdugaLabelCond from rfl] at h6
    rw [show ruleCond 7 = pembiayaanLabelCond from rfl] at hi
    simp only [classify_account]
    rw [if_neg (by simp [h0]), if_neg (by simp [h1]), if_neg (by simp [h2]),
      if_neg (by simp [h3]), if_neg (by simp [h4]), if_neg (by simp [h5]),
      if_neg (by simp [h6]), if_pos hi]
    rfl

/-- Witness for `classify_account_priority`: a label matching both the PAD
    rule (index 0) and the BELANJA_MODAL rule (index 4) classifies as PAD. -/
theorem classify_account_priority_witness :
    ruleCond 0 (toLowerL "pad belanja modal".data) = true
      ∧ ruleCond 4 (toLowerL "pad belanja modal".data) = true
      ∧ classify_account "pad belanja modal" = ruleTag 0 :=
  ⟨by decide, by decide,
    classify_account_priority "pad belanja modal" 0 4 (by norm_num) (by decide) (by decide)
      (fun k hk => absurd hk (Nat.not_lt_zero k))⟩

/-- C8: per-category aggregation is additive — computing the category
    sums over any permutation split of the row set into two parts and
    adding them category-wise gives the sums over the whole row set. -/
theorem agg_totals_additive (rows l1 l2 : List Row) (h : rows.Perm (l1 ++ l2)) (c : String) :
    aggAnggaran rows c = aggAnggaran l1 c + aggAnggaran l2 c
      ∧ aggRealisasi rows c = aggRealisasi l1 c + aggRealisasi l2 c := by
  constructor
  · unfold aggAnggaran
    rw [((h.filter (fun r => classify_account r.akun == c)).map Row.anggaran).sum_eq,
      List.filter_append, List.map_append, List.sum_append]
  · unfold aggRealisasi
    rw [((h.filter (fun r => classify_account r.akun == c)).map Row.realisasi).sum_eq,
      List.filter_append, List.map_append, List.sum_append]

/-- Witness for `agg_totals_additive` on a concrete two-row split. -/
theorem agg_totals_additive_witness :
    aggAnggaran [⟨"Pajak Hotel", 10, 12, none⟩, ⟨"Belanja Modal Jalan", 5, 4, none⟩] "PAD"
        = aggAnggaran [⟨"Pajak Hotel", 10, 12, none⟩] "PAD"
          + aggAnggaran [⟨"Belanja Modal Jalan", 5, 4, none⟩] "PAD"
      ∧ aggRealisasi [⟨"Pajak Hotel", 10, 12, none⟩, ⟨"Belanja Modal Jalan", 5, 4, none⟩] "PAD"
        = aggRealisasi [⟨"Pajak Hotel", 10, 12, none⟩] "PAD"
          + aggRealisasi [⟨"Belanja Modal Jalan", 5, 4, none⟩] "PAD" :=
  agg_totals_additive _ [⟨"Pajak Hotel", 10, 12, none⟩] [⟨"Belanja Modal Jalan", 5, 4, none⟩]
    (List.Perm.refl _) "PAD"

/-- Helper: two strings with different head characters differ. -/
theorem str_ne_of_head {s t : String} (h : s.data.head? ≠ t.data.head?) : s ≠ t :=
  fun he => h (he ▸ rfl)

/-- Helper: every kemandirian band sentence starts with 'R'. -/
theorem kemandirianLine_head (k : ℚ) : (kemandirianLine k).data.head? = some 'R' := by
  unfold kemandirianLine
  split_ifs <;> rfl

/-- Helper: every PAD-effectiveness sentence starts with 'E'. -/
theorem efektivitasLine_head (ef : ℚ) : (efektivitasLine ef).data.head? = some 'E' := by
  unfold efektivitasLine
  split_ifs <;> rfl

/-- Helper: every spending-efficiency sentence starts with 'R'. -/
theorem efisiensiLine_head (efi : ℚ) : (efisiensiLine efi).data.head? = some 'R' := by
  unfold efisiensiLine
  split_ifs <;> rfl

/-- Helper: the composition sentence starts with 'K'. -/
theorem komposisiLine_head (bo bm : ℚ) : (komposisiLine bo bm).data.head? = some 'K' := rfl

/-- Helper: the growth sentence starts with 'P'. -/
theorem pertumbuhanLine_head (pg : ℚ) : (pertumbuhanLine pg).data.head? = some 'P' := rfl

/-- Helper: the SILPA sentence starts with 'T'. -/
theorem silpaLine_head (v : ℚ) : (silpaLine v).data.head? = some 'T' := rfl

/-- C5: with fewer than two distinct period tags in the input, the
    previous-period totals are absent (`None`), all three growth ratios
    are reported as the unavailability sentinel, and the interpretation
    output contains no growth sentence. -/
theorem growth_unavailable (rows : List Row)
    (h : ((rows.filterMap Row.tahun).dedup).length < 2) :
    buildTotalsPrev rows = none
      ∧ rlookup (compute_all_ratios (buildTotalsPrev rows) (buildTotals rows))
          "Pertumbuhan Pendapatan (%)" = some none
      ∧ rlookup (compute_all_ratios (buildTotalsPrev rows) (buildTotals rows))
          "Pertumbuhan Belanja (%)" = some none
      ∧ rlookup (compute_all_ratios (buildTotalsPrev rows) (buildTotals rows))
          "Pertumbuhan PAD (%)" = some none
      ∧ ∃ ls, interpret_lines (compute_all_ratios (buildTotalsPrev rows) (buildTotals rows))
          = Except.ok ls ∧ ∀ v : ℚ, pertumbuhanLine v ∉ ls := by
  have hbp : buildTotalsPrev rows = none := by
    simp only [buildTotalsPrev]
    rw [if_neg (by omega)]
  refine ⟨hbp, ?_, ?_, ?_, ?_⟩ <;> rw [hbp]
  · rfl
  · rfl
  · rfl
  · refine ⟨_, rfl, ?_⟩
    show ∀ v : ℚ, pertumbuhanLine v ∉
      [kemandirianLine _, efektivitasLine _, efisiensiLine _, komposisiLine _ _]
    intro v hv
    simp only [List.mem_cons, List.not_mem_nil, or_false] at hv
    rcases hv with hq | hq | hq | hq
    · exact absurd hq (str_ne_of_head (by rw [pertumbuhanLine_head, kemandirianLine_head]; decide))
    · exact absurd hq (str_ne_of_head (by rw [pertumbuhanLine_head, efektivitasLine_head]; decide))
    · exact absurd hq (str_ne_of_head (by rw [pertumbuhanLine_head, efisiensiLine_head]; decide))
    · exact absurd hq (str_ne_of_head (by rw [pertumbuhanLine_head, komposisiLine_head]; decide))

/-- Witness for `growth_unavailable` on a concrete one-period row set. -/
theorem growth_unavailable_witness :
    buildTotalsPrev [⟨"Pajak Hotel", 10, 12, some "2024"⟩] = none
      ∧ rlookup (compute_all_ratios (buildTotalsPrev [⟨"Pajak Hotel", 10, 12, some "2024"⟩])
          (buildTotals [⟨"Pajak Hotel", 10, 12, some "2024"⟩])) "Pertumbuhan Pendapatan (%)"
          = some none :=
  ⟨(growth_unavailable [⟨"Pajak Hotel", 10, 12, some "2024"⟩] (by decide)).1,
   (growth_unavailable [⟨"Pajak Hotel", 10, 12, some "2024"⟩] (by decide)).2.1⟩

/-- C9: the totals dict built by the pipeline never carries the keys
    "SILPA", "Belanja_Pegawai" or "Belanja_BarangJasa"; consequently the
    SILPA figure and the two sub-spending ratios are always 0.0 in the
    computed RatioSet (whatever previous totals are supplied), and the
    interpretation never emits the SILPA carryover sentence. -/
theorem totals_never_silpa (rows : List Row) (tp : Option (List (String × ℚ))) :
    lookupT (buildTotals rows) "SILPA" = none
      ∧ lookupT (buildTotals rows) "Belanja_Pegawai" = none
      ∧ lookupT (buildTotals rows) "Belanja_BarangJasa" = none
      ∧ rlookup (compute_all_ratios tp (buildTotals rows)) "SILPA (Receipts)" = some (some 0)
      ∧ rlookup (compute_all_ratios tp (buildTotals rows))
          "Rasio Belanja Pegawai terhadap Belanja (%)" = some (some 0)
      ∧ rlookup (compute_all_ratios tp (buildTotals rows))
          "Rasio Belanja Barang/Jasa terhadap Belanja (%)" = some (some 0)
      ∧ ∃ ls, interpret_lines (compute_all_ratios tp (buildTotals rows)) = Except.ok ls
          ∧ ∀ v : ℚ, silpaLine v ∉ ls := by
  refine ⟨rfl, rfl, rfl, ?_, ?_, ?_, ?_⟩
  · rcases tp with _ | (_ | ⟨p, tl⟩) <;> rfl
  · have e : rlookup (compute_all_ratios tp (buildTotals rows))
        "Rasio Belanja Pegawai terhadap Belanja (%)"
        = some (some (safe_pct (dictGetD (buildTotals rows) "Belanja_Pegawai" 0)
            (dictGetD (buildTotals rows) "TOTAL_BELANJA" 0))) := rfl
    rw [e, show dictGetD (buildTotals rows) "Belanja_Pegawai" 0 = 0 from rfl, safe_pct_zero_num]
  · have e : rlookup (compute_all_ratios tp (buildTotals rows))
        "Rasio Belanja Barang/Jasa terhadap Belanja (%)"
        = some (some (safe_pct (dictGetD (buildTotals rows) "Belanja_BarangJasa" 0)
            (dictGetD (buildTotals rows) "TOTAL_BELANJA" 0))) := rfl
    rw [e, show dictGetD (buildTotals rows) "Belanja_BarangJasa" 0 = 0 from rfl, safe_pct_zero_num]
  · rcases tp with _ | (_ | ⟨p, tl⟩)
    · refine ⟨_, rfl, ?_⟩
      show ∀ v : ℚ, silpaLine v ∉
        [kemandirianLine _, efektivitasLine _, efisiensiLine _, komposisiLine _ _]
      intro v hv
      simp only [List.mem_cons, List.not_mem_nil, or_false] at hv
      rcases hv with hq | hq | hq | hq
      · exact absurd hq (str_ne_of_head (by rw [silpaLine_head, kemandirianLine_head]; decide))
      · exact absurd hq (str_ne_of_head (by rw [silpaLine_head, efektivitasLine_head]; decide))
      · exact absurd hq (str_ne_of_head (by rw [silpaLine_head, efisiensiLine_head]; decide))
      · exact absurd hq (str_ne_of_head (by rw [silpaLine_head, komposisiLine_head]; decide))
    · refine ⟨_, rfl, ?_⟩
      show ∀ v : ℚ, silpaLine v ∉
        [kemandirianLine _, efektivitasLine _, efisiensiLine _, komposisiLine _ _]
      intro v hv
      simp only [List.mem_cons, List.not_mem_nil, or_false] at hv
      rcases hv with hq | hq | hq | hq
      · exact absurd hq (str_ne_of_head (by rw [silpaLine_head, kemandirianLine_head]; decide))
      · exact absurd hq (str_ne_of_head (by rw [silpaLine_head, efektivitasLine_head]; decide))
      · exact absurd hq (str_ne_of_head (by rw [silpaLine_head, efisiensiLine_head]; decide))
      · exact absurd hq (str_ne_of_head (by rw [silpaLine_head, komposisiLine_head]; decide))
    · refine ⟨_, rfl, ?_⟩
      show ∀ v : ℚ, silpaLine v ∉
        [kemandirianLine _, efektivitasLine _, efisiensiLine _, komposisiLine _ _,
          pertumbuhanLine _]
      intro v hv
      simp only [List.mem_cons, List.not_mem_nil, or_false] at hv
      rcases hv with hq | hq | hq | hq | hq
      · exact absurd hq (str_ne_of_head (by rw [silpaLine_head, kemandirianLine_head]; decide))
      · exact absurd hq (str_ne_of_head (by rw [silpaLine_head, efektivitasLine_head]; decide))
      · exact absurd hq (str_ne_of_head (by rw [silpaLine_head, efisiensiLine_head]; decide))
      · exact absurd hq (str_ne_of_head (by rw [silpaLine_head, komposisiLine_head]; decide))
      · exact absurd hq (str_ne_of_head (by rw [silpaLine_head, pertumbuhanLine_head]; decide))

/-- C10: the interpretation output is insensitive to whether the
    Kemandirian ratio carries the `None` marker or a genuine 0.0 (the
    `None` is coerced to 0.0, landing in the lowest band), and whenever
    the two composition values are not `None` the engine succeeds and
    always emits the kemandirian sentence first plus the composition
    sentence — so an unavailable Kemandirian is indistinguishable from a
    genuine 0% in the narrative. -/
theorem interpret_kemandirian_always :
    (∀ rest : List (String × Option ℚ),
        interpret_lines (("Rasio Kemandirian (%)", (none : Option ℚ)) :: rest)
          = interpret_lines (("Rasio Kemandirian (%)", some 0) :: rest))
      ∧ ∀ ratios : List (String × Option ℚ),
          rget ratios "Rasio Belanja Operasi (%)" (some 0) ≠ none →
          rget ratios "Rasio Belanja Modal (%)" (some 0) ≠ none →
          ∃ ls bo bm,
            interpret_lines ratios = Except.ok ls
              ∧ rget ratios "Rasio Belanja Operasi (%)" (some 0) = some bo
              ∧ rget ratios "Rasio Belanja Modal (%)" (some 0) = some bm
              ∧ ls.head? = some (kemandirianLine
                  ((rget ratios "Rasio Kemandirian (%)" (some 0)).getD 0))
              ∧ komposisiLine bo bm ∈ ls := by
  constructor
  · intro rest
    rfl
  · intro ratios hbo hbm
    obtain ⟨bo, hbo'⟩ := Option.ne_none_iff_exists'.mp hbo
    obtain ⟨bm, hbm'⟩ := Option.ne_none_iff_exists'.mp hbm
    have hok : interpret_lines ratios = Except.ok
        ([kemandirianLine ((rget ratios "Rasio Kemandirian (%)" (some 0)).getD 0)]
          ++ (match rget ratios "Rasio Efektivitas PAD (%)" (some 0) with
              | none => []
              | some ef => [efektivitasLine ef])
          ++ (match rget ratios "Rasio Efisiensi Belanja (%)" (some 0) with
              | none => []
              | some efi => [efisiensiLine efi])
          ++ [komposisiLine bo bm]
          ++ (match rget ratios "Pertumbuhan Pendapatan (%)" none with
              | none => []
              | some pg => [pertumbuhanLine pg])
          ++ (match rget ratios "SILPA (Receipts)" none with
              | some v => if v = 0 then [] else [silpaLine v]
              | none => [])) := by
      unfold interpret_lines
      rw [hbo', hbm']
    refine ⟨_, bo, bm, hok, hbo', hbm', ?_, ?_⟩
    · simp only [List.cons_append, List.head?_cons]
    · simp [List.mem_append]

/-- Witness for `interpret_kemandirian_always` on a ratio set whose
    Kemandirian entry is the `None` marker. -/
theorem interpret_kemandirian_always_witness :
    ∃ ls bo bm,
      interpret_lines [("Rasio Kemandirian (%)", (none : Option ℚ))] = Except.ok ls
        ∧ rget [("Rasio Kemandirian (%)", (none : Option ℚ))]
            "Rasio Belanja Operasi (%)" (some 0) = some bo
        ∧ rget [("Rasio Kemandirian (%)", (none : Option ℚ))]
            "Rasio Belanja Modal (%)" (some 0) = some bm
        ∧ ls.head? = some (kemandirianLine ((rget [("Rasio Kemandirian (%)", (none : Option ℚ))]
            "Rasio Kemandirian (%)" (some 0)).getD 0))
        ∧ komposisiLine bo bm ∈ ls :=
  interpret_kemandirian_always.2 _ (by decide) (by decide)

/-- Helper: `digitChar` always yields a digit character. -/
theorem digitChar_digit (n : ℕ) : isDigitChar (digitChar n) = true := by
  unfold digitChar
  rcases n with _ | _ | _ | _ | _ | _ | _ | _ | _ | n <;>
    exact (by decide : isDigitChar '9' = true)

/-- Helper: `digitVal` inverts `digitChar` below ten. -/
theorem digitVal_digitChar {n : ℕ} (h : n < 10) : digitVal (digitChar n) = n := by
  interval_cases n <;> decide

/-- Helper: the rendering of a natural number is nonempty. -/
theorem toDecDigits_ne_nil (n : ℕ) : toDecDigits n ≠ [] := by
  unfold toDecDigits toDecDigitsAux
  split_ifs <;> simp

/-- Helper: the rendering of a natural number consists of digit characters. -/
theorem toDecDigitsAux_digits : ∀ (f n : ℕ), ∀ c ∈ toDecDigitsAux f n, isDigitChar c = true := by
  intro f
  induction f with
  | zero => intro n c hc; simp [toDecDigitsAux] at hc
  | succ f ih =>
    intro n c hc
    unfold toDecDigitsAux at hc
    split_ifs at hc with h
    · simp only [List.mem_singleton] at hc
      exact hc ▸ digitChar_digit n
    · simp only [List.mem_append, List.mem_singleton] at hc
      rcases hc with hc | hc
      · exact ih _ c hc
      · exact hc ▸ digitChar_digit (n % 10)

/-- Helper: every character of the rendering of a natural is a digit. -/
theorem toDecDigits_digits (n : ℕ) : ∀ c ∈ toDecDigits n, isDigitChar c = true :=
  toDecDigitsAux_digits (n + 1) n

/-- Helper: reading the rendered digits of a natural recovers it. -/
theorem ofDec_toDecAux : ∀ (f n : ℕ), n < f → ofDecDigits (toDecDigitsAux f n) = n := by
  intro f
  induction f with
  | zero => intro n hn; omega
  | succ f ih =>
    intro n hn
    unfold toDecDigitsAux
    split_ifs with h
    · show List.foldl _ 0 _ = n
      simp [List.foldl, digitVal_digitChar h]
    · have hdiv : n / 10 < f := by
        have h1 := Nat.div_lt_self (by omega : 0 < n) (by norm_num : 1 < 10)
        omega
      show List.foldl _ 0 _ = n
      rw [List.foldl_append]
      have hih := ih (n / 10) hdiv
      unfold ofDecDigits at hih
      rw [hih]
      simp only [List.foldl]
      rw [digitVal_digitChar (Nat.mod_lt n (by norm_num))]
      omega

/-- Helper: reading back the decimal rendering of a natural number. -/
theorem ofDec_toDec (n : ℕ) : ofDecDigits (toDecDigits n) = n :=
  ofDec_toDecAux (n + 1) n (Nat.lt_succ_self n)

/-- Helper: a digit character never tests equal to a non-digit character. -/
theorem digit_beq_false {c d : Char} (hc : isDigitChar c = true) (hd : isDigitChar d = false) :
    (c == d) = false := by
  cases h : c == d
  · rfl
  · rw [eq_of_beq h] at hc
    rw [hc] at hd
    exact Bool.noConfusion hd

/-- Helper: digit characters are not whitespace. -/
theorem digit_not_ws {c : Char} (hc : isDigitChar c = true) : c.isWhitespace = false := by
  unfold isDigitChar at hc
  simp only [decide_eq_true_eq] at hc
  unfold Char.isWhitespace
  have h1 : ¬c = ' ' := fun he => by rw [he] at hc; exact absurd hc (by decide)
  have h2 : ¬c = '\t' := fun he => by rw [he] at hc; exact absurd hc (by decide)
  have h3 : ¬c = '\r' := fun he => by rw [he] at hc; exact absurd hc (by decide)
  have h4 : ¬c = '\n' := fun he => by rw [he] at hc; exact absurd hc (by decide)
  simp [h1, h2, h3, h4]

/-- Helper: a list without whitespace is unchanged by stripping. -/
theorem trim_of_no_ws {l : List Char} (h : ∀ c ∈ l, c.isWhitespace = false) :
    trimChars l = l := by
  have key : ∀ (m : List Char), (∀ c ∈ m, c.isWhitespace = false) →
      m.dropWhile Char.isWhitespace = m := by
    intro m hm
    cases m with
    | nil => rfl
    | cons a t => exact List.dropWhile_cons_of_neg (by simp [hm a (by simp)])
  unfold trimChars
  rw [key _ h, key _ (fun c hc => h c (by simpa using hc)), List.reverse_reverse]

/-- Helper: mapping a function that fixes every member is the identity. -/
theorem map_id_of_mem {f : Char → Char} : ∀ {l : List Char}, (∀ c ∈ l, f c = c) →
    l.map f = l := by
  intro l h
  induction l with
  | nil => rfl
  | cons a t ih =>
    simp only [List.map_cons, h a (by simp)]
    rw [ih fun b hb => h b (by simp [hb])]

/-- Helper: `takeWhile`/`dropWhile` at the first dot after a dot-free block. -/
theorem takeDropWhile_dot (l2 : List Char) : ∀ (l1 : List Char),
    (∀ c ∈ l1, (!(c == '.')) = true) →
    (l1 ++ '.' :: l2).takeWhile (fun c => !(c == '.')) = l1
      ∧ (l1 ++ '.' :: l2).dropWhile (fun c => !(c == '.')) = '.' :: l2 := by
  intro l1 h
  induction l1 with
  | nil =>
    constructor
    · simp [List.takeWhile]
    · simp [List.dropWhile]
  | cons a t ih =>
    have ha := h a (by simp)
    have iht := ih fun b hb => h b (by simp [hb])
    constructor
    · simp only [List.cons_append, List.takeWhile_cons, ha, if_true]
      rw [iht.1]
    · simp only [List.cons_append, List.dropWhile_cons, ha, if_true]
      exact iht.2

/-- Helper: `String.mk` projection. -/
theorem data_mk (l : List Char) : (⟨l⟩ : String).data = l := rfl

/-- Helper: Python `str` on an integral float value renders sign, the
    decimal digits and a trailing ".0". -/
theorem pyStr_intCast (z : ℤ) :
    pyStr (z : ℚ) = ⟨(if z < 0 then ['-'] else []) ++ toDecDigits z.natAbs ++ ['.'] ++ ['0']⟩ := by
  have habs : ((z.natAbs : ℕ) : ℚ) = |(z : ℚ)| := by
    rw [Int.cast_natAbs, Int.cast_abs]
  have hfl : fracLenAux |(z : ℚ)| = 0 := by
    unfold fracLenAux
    rw [show (400 : ℕ) = 399 + 1 from rfl, List.range_succ_eq_map,
      List.find?_cons_of_pos _ (by simp [← habs, Rat.den_natCast])]
    rfl
  have hfloor : (⌊|(z : ℚ)|⌋).toNat = z.natAbs := by
    rw [← habs, Int.floor_natCast, Int.toNat_natCast]
  simp only [pyStr, hfl, hfloor, Int.cast_lt_zero]
  have hm : ((|(z : ℚ)| - ((z.natAbs : ℕ) : ℚ)) * 10 ^ (max 1 0 : ℕ)).num.toNat = 0 := by
    rw [habs, sub_self, zero_mul]
    rfl
  rw [hm]
  rfl

/-- Helper: the cleaning pipeline leaves a rendered signed decimal
    "sign digits . 0" unchanged. -/
theorem clean_rendered (neg : Bool) (d : Char) (D' : List Char)
    (hD : ∀ c ∈ d :: D', isDigitChar c = true) :
    clean_number_text ⟨(if neg then ['-'] else []) ++ (d :: D') ++ ['.'] ++ ['0']⟩
      = (if neg then ['-'] else []) ++ (d :: D') ++ ['.'] ++ ['0'] := by
  have hmemL : ∀ c ∈ (if neg then ['-'] else []) ++ (d :: D') ++ ['.'] ++ ['0'],
      isDigitChar c = true ∨ c = '.' ∨ c = '-' := by
    intro c hc
    simp only [List.mem_append, List.mem_singleton] at hc
    rcases hc with ((hc | hc) | hc) | hc
    · cases neg <;> simp_all
    · exact Or.inl (hD c hc)
    · exact Or.inr (Or.inl hc)
    · exact Or.inl (by rw [hc]; decide)
  have hws : ∀ c ∈ (if neg then ['-'] else []) ++ (d :: D') ++ ['.'] ++ ['0'],
      c.isWhitespace = false := by
    intro c hc
    rcases hmemL c hc with h | h | h
    · exact digit_not_ws h
    · rw [h]; decide
    · rw [h]; decide
  have hhead : ((if neg then ['-'] else []) ++ (d :: D') ++ ['.'] ++ ['0']).head?
      = some (if neg then '-' else d) := by
    cases neg <;> simp [List.cons_append]
  have hparen : (((if neg then ['-'] else []) ++ (d :: D') ++ ['.'] ++ ['0']).head?
      == some '(') = false := by
    rw [hhead]
    cases neg
    · simp only [if_neg Bool.false_ne_true]
      have : (d == '(') = false := digit_beq_false (hD d (by simp)) (by decide)
      simpa using this
    · rw [if_pos rfl]
      decide
  have hkeep : keepNumChars ((if neg then ['-'] else []) ++ (d :: D') ++ ['.'] ++ ['0'])
      = (if neg then ['-'] else []) ++ (d :: D') ++ ['.'] ++ ['0'] := by
    apply List.filter_eq_self.mpr
    intro c hc
    rcases hmemL c hc with h | h | h
    · simp [h]
    · rw [h]; decide
    · rw [h]; decide
  have hdot : ((if neg then ['-'] else []) ++ (d :: D') ++ ['.'] ++ ['0']).contains '.' = true := by
    simpa using Or.inl (Or.inr (by simp : '.' ∈ ['.']))
  have hcomma : ((if neg then ['-'] else []) ++ (d :: D') ++ ['.'] ++ ['0']).contains ',' = false := by
    have : ',' ∉ (if neg then ['-'] else []) ++ (d :: D') ++ ['.'] ++ ['0'] := by
      intro hc
      rcases hmemL ',' hc with h | h | h
      · exact absurd h (by decide)
      · exact absurd h (by decide)
      · exact absurd h (by decide)
    simpa using this
  have htrail : trailingDecMatch ((if neg then ['-'] else []) ++ (d :: D') ++ ['.'] ++ ['0'])
      = true := by
    unfold trailingDecMatch
    have hrev : ((if neg then ['-'] else []) ++ (d :: D') ++ ['.'] ++ ['0']).reverse
        = '0' :: '.' :: ((d :: D').reverse ++ (if neg then ['-'] else []).reverse) := by
      simp [List.reverse_append]
    rw [hrev]
    rfl
  have hmap : ∀ (m : List Char), (∀ c ∈ m, isDigitChar c = true ∨ c = '.' ∨ c = '-') →
      (m.map fun c => if c == ',' then '.' else c) = m := by
    intro m hm
    apply map_id_of_mem
    intro c hc
    have : (c == ',') = false := by
      rcases hm c hc with h | h | h
      · exact digit_beq_false h (by decide)
      · rw [h]; decide
      · rw [h]; decide
    simp [this]
  simp only [clean_number_text, data_mk]
  rw [trim_of_no_ws hws, hparen]
  simp only [Bool.false_and, Bool.false_eq_true, if_false]
  rw [hkeep, hdot, hcomma]
  simp only [Bool.and_false, Bool.false_eq_true, if_false, htrail, Bool.not_true,
    Bool.and_true, Bool.true_and]
  rw [hmap _ hmemL]
  apply List.filter_eq_self.mpr
  intro c hc
  rcases hmemL c hc with h | h | h
  · simp [h]
  · rw [h]; decide
  · rw [h]; decide

/-- Helper: the float lexer accepts a rendered signed decimal
    "sign digits . 0" and splits it into its parts. -/
theorem floatParts_rendered (neg : Bool) (d : Char) (D' : List Char)
    (hD : ∀ c ∈ d :: D', isDigitChar c = true) :
    floatParts ((if neg then ['-'] else []) ++ (d :: D') ++ ['.'] ++ ['0'])
      = some (neg, d :: D', ['0']) := by
  have hr : ∀ c ∈ (d :: D') ++ ['.'] ++ ['0'], (isDigitChar c || c == '.') = true := by
    intro c hc
    simp only [List.mem_append, List.mem_singleton] at hc
    rcases hc with (hc | hc) | hc
    · simp [hD c hc]
    · rw [hc]; decide
    · rw [hc]; decide
  have hcount : ((d :: D') ++ ['.'] ++ ['0']).count '.' = 1 := by
    have h1 : (d :: D').count '.' = 0 := by
      apply List.count_eq_zero.mpr
      intro hm
      have := hD '.' hm
      exact absurd this (by decide)
    rw [List.count_append, List.count_append, h1]
    rfl
  have hsplit := takeDropWhile_dot ['0'] (d :: D')
    (fun c hc => by simp [digit_beq_false (hD c hc) (by decide : isDigitChar '.' = false)])
  have hassoc : (d :: D') ++ ['.'] ++ ['0'] = (d :: D') ++ '.' :: ['0'] := by
    simp
  have hguard : (((d :: D') ++ ['.'] ++ ['0']).all (fun c => isDigitChar c || c == '.')
        && decide (((d :: D') ++ ['.'] ++ ['0']).count '.' ≤ 1)
        && ((d :: D') ++ ['.'] ++ ['0']).any isDigitChar) = true := by
    rw [List.all_eq_true.mpr hr, hcount]
    have hany : ((d :: D') ++ ['.'] ++ ['0']).any isDigitChar = true :=
      List.any_eq_true.mpr ⟨d, by simp, hD d (by simp)⟩
    rw [hany]
    rfl
  cases neg
  · show floatParts ((d :: D') ++ ['.'] ++ ['0']) = some (false, d :: D', ['0'])
    unfold floatParts
    rw [show (((d :: D') ++ ['.'] ++ ['0']).head? == some '-') = false from by
      simp only [List.cons_append, List.head?_cons]
      simpa using digit_beq_false (hD d (by simp)) (by decide : isDigitChar '-' = false)]
    simp only [Bool.false_eq_true, if_false]
    rw [if_pos hguard, hassoc, hsplit.1, hsplit.2]
    rfl
  · show (if (((d :: D' ++ ['.'] ++ ['0']).all fun c => isDigitChar c || c == '.')
          && decide (List.count '.' (d :: D' ++ ['.'] ++ ['0']) ≤ 1)
          && (d :: D' ++ ['.'] ++ ['0']).any isDigitChar) = true then
        some (true, List.takeWhile (fun c => !(c == '.')) (d :: D' ++ ['.'] ++ ['0']),
          (List.dropWhile (fun c => !(c == '.')) (d :: D' ++ ['.'] ++ ['0'])).tail)
      else none) = some (true, d :: D', ['0'])
    rw [if_pos hguard, hassoc, hsplit.1, hsplit.2]
    rfl

/-- Helper: 10^16 is far below the double overflow threshold. -/
theorem ten_pow16_lt_thr : (10 : ℚ) ^ 16 < dblOverflowThreshold := by
  unfold dblOverflowThreshold
  have e1 : (10 : ℚ) ^ 16 < 2 ^ 64 := by norm_num
  have e2 : (2 : ℚ) ^ 64 ≤ 2 ^ 1023 := pow_le_pow_right₀ (by norm_num) (by norm_num)
  have e3 : (2 : ℚ) ^ 970 ≤ 2 ^ 1023 := pow_le_pow_right₀ (by norm_num) (by norm_num)
  have e4 : (2 : ℚ) ^ 1024 = 2 * 2 ^ 1023 := by
    rw [show (1024 : ℕ) = 1023 + 1 from rfl, pow_succ]
    ring
  linarith

/-- Helper: parsing a rendered signed decimal "sign digits . 0" recovers
    the signed integral value (within the double range). -/
theorem parse_rendered (neg : Bool) (n : ℕ) (hn : (n : ℚ) < dblOverflowThreshold) :
    parse_number_str ⟨(if neg then ['-'] else []) ++ toDecDigits n ++ ['.'] ++ ['0']⟩
      = .finite ((if neg then (-1 : ℚ) else 1) * n) := by
  obtain ⟨d, D', hDD⟩ : ∃ d D', toDecDigits n = d :: D' := by
    rcases h : toDecDigits n with _ | ⟨d, D'⟩
    · exact absurd h (toDecDigits_ne_nil n)
    · exact ⟨d, D', rfl⟩
  have hD : ∀ c ∈ d :: D', isDigitChar c = true := hDD ▸ toDecDigits_digits n
  have hws : ∀ c ∈ (if neg then ['-'] else []) ++ (d :: D') ++ ['.'] ++ ['0'],
      c.isWhitespace = false := by
    intro c hc
    simp only [List.mem_append, List.mem_singleton] at hc
    rcases hc with ((hc | hc) | hc) | hc
    · cases neg <;> simp_all <;> decide
    · exact digit_not_ws (hD c hc)
    · rw [hc]; decide
    · rw [hc]; decide
  rw [hDD]
  rw [parse_str_parts_some ⟨(if neg then ['-'] else []) ++ (d :: D') ++ ['.'] ++ ['0']⟩
    neg (d :: D') ['0']
    (by
      rw [data_mk, trim_of_no_ws hws]
      cases neg <;> simp
    )
    (by rw [clean_rendered neg d D' hD, floatParts_rendered neg d D' hD])]
  have hval : ((ofDecDigits (d :: D') : ℚ) + (ofDecDigits ['0'] : ℚ) / 10 ^ (['0'] : List Char).length)
      = (n : ℚ) := by
    rw [← hDD, ofDec_toDec, show ofDecDigits ['0'] = 0 from rfl]
    norm_num
  rw [hval]
  have hn0 : (0 : ℚ) ≤ (n : ℚ) := Nat.cast_nonneg n
  cases neg
  · rw [if_neg Bool.false_ne_true]
    rw [pyFloatOfQ_finite (by linarith) (by linarith)]
  · rw [if_pos rfl]
    rw [pyFloatOfQ_finite (by linarith) (by linarith)]

/-- C7 (amended): `normalize` is idempotent on its own output for outputs
    that are integral and of magnitude below 10^16 — Python prints such a
    value positionally as "N.0", whose trailing ".0" keeps the dot, and
    re-parsing recovers the value exactly.  (Outputs with more than three
    fractional digits are not preserved; see the round-trip
    counterexample.) -/
theorem parse_number_roundtrip_integral (z : ℤ) (hz : |z| < 10 ^ 16) :
    parse_number (PyVal.str (pyStr (z : ℚ))) = .finite (z : ℚ) := by
  show parse_number_str _ = _
  rw [pyStr_intCast]
  have hth : ((z.natAbs : ℕ) : ℚ) < dblOverflowThreshold := by
    have h1 : (z.natAbs : ℤ) < 10 ^ 16 := by
      rw [Int.abs_eq_natAbs] at hz
      exact_mod_cast hz
    have h2 : ((z.natAbs : ℕ) : ℚ) < (10 : ℚ) ^ 16 := by exact_mod_cast h1
    linarith [ten_pow16_lt_thr]
  by_cases hneg : z < 0
  · rw [if_pos hneg]
    have h1 : parse_number_str ⟨['-'] ++ toDecDigits z.natAbs ++ ['.'] ++ ['0']⟩
        = .finite ((if true then (-1 : ℚ) else 1) * z.natAbs) :=
      parse_rendered true z.natAbs hth
    rw [h1, if_pos rfl]
    have h2 : ((z.natAbs : ℕ) : ℚ) = -(z : ℚ) := by
      rw [Int.cast_natAbs, Int.cast_abs, abs_of_neg (by exact_mod_cast hneg : (z : ℚ) < 0)]
    rw [h2]
    norm_num
  · rw [if_neg hneg]
    have h1 : parse_number_str ⟨[] ++ toDecDigits z.natAbs ++ ['.'] ++ ['0']⟩
        = .finite ((if false then (-1 : ℚ) else 1) * z.natAbs) :=
      parse_rendered false z.natAbs hth
    rw [h1, if_neg Bool.false_ne_true]
    have h2 : ((z.natAbs : ℕ) : ℚ) = (z : ℚ) := by
      rw [Int.cast_natAbs, Int.cast_abs,
        abs_of_nonneg (by exact_mod_cast (not_lt.mp hneg) : (0 : ℚ) ≤ (z : ℚ))]
    rw [h2]
    norm_num

/-- Witness for `parse_number_roundtrip_integral` at the value 3. -/
theorem parse_number_roundtrip_integral_witness :
    parse_number (PyVal.str (pyStr ((3 : ℤ) : ℚ))) = .finite ((3 : ℤ) : ℚ) :=
  parse_number_roundtrip_integral 3 (by norm_num)
